import Mathlib

/-!
Verification of the Security Research Terminal devtools panel
(`panel.js`).  Strings are embedded as `List Char`; the host-provided
primitives (`fetch`, `chrome.devtools.inspectedWindow.eval`, the `URL`
constructor, `JSON.stringify`) are modelled as oracle parameters; every
observable effect of a handler (output lines, runtime messages, transport
invocations, network fetches, status-indicator changes) is recorded in an
event trace in program order.
-/

namespace SRT

/-- Strings of the JavaScript program, embedded as lists of characters. -/
abbrev Str := List Char

/-- Coerce a Lean string literal to the embedded string type. -/
def str (s : String) : Str := s.data

/-- Whitespace test used for the `\s` regex class and for `trim`
(the inputs of this program are single input-field lines, so the
ASCII whitespace characters are the ones that can occur). -/
def isWs (c : Char) : Bool := c = ' ' || c = '\t' || c = '\n' || c = '\r'

/-- Leading-whitespace removal, one side of `String.prototype.trim`. -/
def dropWs : Str → Str
  | [] => []
  | c :: rest => if isWs c then dropWs rest else c :: rest

/-- `String.prototype.trim`: whitespace removed from both ends. -/
def trimWs (l : Str) : Str := ((dropWs l).reverse |> dropWs).reverse

/-- Worker of the `split(/\s+/)` embedding: `inRun` records whether the
scanner is inside a whitespace run (a maximal run is one separator),
`acc` the reversed current field. -/
def splitWsAux : Bool → Str → Str → List Str
  | inRun, [], acc => if inRun then [[]] else [acc.reverse]
  | inRun, c :: rest, acc =>
    if inRun then
      if isWs c then splitWsAux true rest []
      else splitWsAux false rest [c]
    else
      if isWs c then acc.reverse :: splitWsAux true rest []
      else splitWsAux false rest (c :: acc)

/-- `String.prototype.split(/\s+/)`: the input is cut at every maximal
run of whitespace; a leading (resp. trailing) run contributes an empty
first (resp. last) field, exactly as in JavaScript. -/
def splitWs (l : Str) : List Str := splitWsAux false l []

/-- ASCII lowercasing of a string, the embedding of
`String.prototype.toLowerCase` (the program only compares the result
against ASCII keywords, and no single character outside ASCII
lowercases onto a character of those keywords). -/
def lowerStr (l : Str) : Str := l.map Char.toLower

/-- Severity category of a terminal output line (the CSS class passed
to `appendOutput`). -/
inductive Category
  | success
  | error
  | warning
  | commandLine
  | code
  deriving DecidableEq, Repr

/-- One line appended to the terminal output log. -/
structure OutputLine where
  text : Str
  category : Category
  deriving DecidableEq, Repr

/-- Quote escaping applied to every user-supplied DOM argument before it
is embedded into a generated script: the embedding of
`s.replace(/'/g, "\\'")`, which rewrites each single quote to a
backslash-quote pair and leaves every other character (backslashes
included) unchanged. -/
def escapeQuotes : Str → Str
  | [] => []
  | c :: rest => (if c = '\'' then ['\\', '\''] else [c]) ++ escapeQuotes rest

/-- Value of a JavaScript escape sequence `\d` for the escape characters
that single-quoted literals of this program can contain (`\'`, `\"`,
`\\` and the control-character escapes); any other escaped character
stands for itself. -/
def escDecode (d : Char) : Char :=
  if d = 'n' then '\n'
  else if d = 'r' then '\r'
  else if d = 't' then '\t'
  else d

/-- Lexer for the body of a single-quoted JavaScript string literal,
started just after the opening quote: returns the decoded literal value
and the text following the closing quote, or `none` when the literal
never closes (end of input, trailing lone backslash, or a raw line
terminator, which is a syntax error inside a literal). -/
def scanLit : Str → Option (Str × Str)
  | [] => none
  | c :: rest =>
    if c = '\'' then some ([], rest)
    else if c = '\\' then
      match rest with
      | [] => none
      | d :: rest2 => (scanLit rest2).map fun p => (escDecode d :: p.1, p.2)
    else if c = '\n' ∨ c = '\r' then none
    else (scanLit rest).map fun p => (c :: p.1, p.2)

/-- Generated or relayed script payload handed to the transport
primitive (`chrome.devtools.inspectedWindow.eval`).  Each constructor
stands for one of the code templates built in `panel.js`, applied to its
interpolated arguments; the DOM constructors carry the arguments as
interpolated, i.e. after `escapeQuotes` (for `domReplace` the old text
is interpolated twice and the new text once, all escaped). -/
inductive Script
  | wrappedSnippet (code : Str)
  | pageText
  | pageLinks
  | pageMeta
  | domSet (selector text : Str)
  | domHtml (selector html : Str)
  | domAttr (selector attrName value : Str)
  | domReplace (oldText newText : Str)
  deriving DecidableEq, Repr

/-- The three status indicators of the panel. -/
inductive StatusKind
  | snippet
  | dom
  | scraping
  deriving DecidableEq, Repr

/-- Observable effect of the panel, recorded in program order: an output
line appended to the log, a `chrome.runtime.sendMessage` call, a
transport invocation, a network `fetch`, a status-indicator change, or
clearing the output log.  Transport completion is modelled as
synchronous: the completion callback's effects follow the call
immediately, which is the sequencing a single command observes. -/
inductive Event
  | output (l : OutputLine)
  | message (m : Str)
  | evalCall (s : Script)
  | netFetch (u : Str)
  | statusSet (k : StatusKind) (active : Bool)
  | clearLog
  deriving DecidableEq, Repr

/-- Network fetches of a trace, in order. -/
def networkOf (t : List Event) : List Str :=
  t.filterMap fun e => match e with | .netFetch u => some u | _ => none

/-- Transport invocations of a trace, in order. -/
def transportOf (t : List Event) : List Script :=
  t.filterMap fun e => match e with | .evalCall s => some s | _ => none

/-- Status-indicator changes of a trace, in order. -/
def statusOf (t : List Event) : List (StatusKind × Bool) :=
  t.filterMap fun e => match e with | .statusSet k b => some (k, b) | _ => none

/-- Output lines of a trace, in order. -/
def outputsOf (t : List Event) : List OutputLine :=
  t.filterMap fun e => match e with | .output l => some l | _ => none

/-- Output lines of a trace whose category is `error`. -/
def errorsOf (t : List Event) : List OutputLine :=
  (outputsOf t).filter fun l => l.category = Category.error

/-- The transport relay `executeInPage(code, callback)`: sends the
`EXECUTION_START` runtime message, invokes the transport, sends the
`EXECUTION_END` runtime message from inside the completion callback
before the rendering callback runs, then runs the rendering callback
(whose effects are `cb`). -/
def executeInPage (code : Script) (cb : List Event) : List Event :=
  Event.message (str "EXECUTION_START") :: Event.evalCall code ::
    Event.message (str "EXECUTION_END") :: cb

/-- The object produced by the wrapper around a user snippet:
`{ success: true, result }` when the snippet's value was captured
(`result := none` models a produced `undefined`), or
`{ success: false, error }` when the wrapper caught a thrown error. -/
structure Wrapped (V : Type) where
  success : Bool
  result : Option V
  error : Str
  deriving DecidableEq, Repr

/-- What the transport reports to the completion callback: either the
evaluation context threw uncatchably (`isException` true, carrying the
exception's text rendering), or a value — the wrapper object, or `none`
when the evaluation produced nothing usable (a falsy `result`). -/
inductive TransportResult (V : Type)
  | exception (text : Str)
  | value (w : Option (Wrapped V))
  deriving DecidableEq, Repr

/-- Host primitives the panel calls into, modelled as oracles: `fetch`
(`some content` on an `ok` response, `none` otherwise), the transport
reply for a wrapped snippet, the `count` field reported by a generated
DOM script (`none` when the transport handed the callback a falsy
result), the lines the page-introspection callbacks render from the
host-shaped structured results, and `JSON.stringify(·, null, 2)`. -/
structure Host (V : Type) where
  fetchOk : Str → Option Str
  snippetReply : Str → TransportResult V
  domCount : Script → Option Nat
  pageLines : Script → List OutputLine
  dump : V → Str

/-- Decimal rendering of a count interpolated into an output line. -/
def natToStr (n : Nat) : Str := (toString n).data

/-- Join of argument tokens with single spaces, the embedding of
`args.join(' ')`. -/
def joinSpace (parts : List Str) : Str := List.intercalate (str " ") parts

/-- Rendering shared by the four DOM-mutation completion callbacks:
`if (result && result.count > 0)` a success line built from the count,
otherwise a warning line. -/
def domResultLines (reply : Option Nat) (mkSuccess : Nat → Str)
    (warnText : Str) : List OutputLine :=
  match reply with
  | some n =>
    if 0 < n then [⟨mkSuccess n, Category.success⟩]
    else [⟨warnText, Category.warning⟩]
  | none => [⟨warnText, Category.warning⟩]

/-- The handler of `dom set <selector> <text>`. -/
def domSetText (host : Host V) (args : List Str) : List Event :=
  if args.length < 2 then
    [Event.output ⟨str "ERROR: Usage: dom set <selector> <text>", Category.error⟩]
  else
    let selector := args.headD []
    let text := joinSpace (args.drop 1)
    let code := Script.domSet (escapeQuotes selector) (escapeQuotes text)
    executeInPage code
      ((domResultLines (host.domCount code)
        (fun n => str "✓ Updated " ++ natToStr n ++ str " element(s)")
        (str "WARNING: No elements matched selector")).map Event.output)

/-- The handler of `dom html <selector> <html>`. -/
def domSetHtml (host : Host V) (args : List Str) : List Event :=
  if args.length < 2 then
    [Event.output ⟨str "ERROR: Usage: dom html <selector> <html>", Category.error⟩]
  else
    let selector := args.headD []
    let html := joinSpace (args.drop 1)
    let code := Script.domHtml (escapeQuotes selector) (escapeQuotes html)
    executeInPage code
      ((domResultLines (host.domCount code)
        (fun n => str "✓ Updated HTML of " ++ natToStr n ++ str " element(s)")
        (str "WARNING: No elements matched selector")).map Event.output)

/-- The handler of `dom attr <selector> <attribute> <value>`. -/
def domSetAttribute (host : Host V) (args : List Str) : List Event :=
  if args.length < 3 then
    [Event.output ⟨str "ERROR: Usage: dom attr <selector> <attribute> <value>",
      Category.error⟩]
  else
    let selector := args.headD []
    let attrName := (args.drop 1).headD []
    let value := joinSpace (args.drop 2)
    let code := Script.domAttr (escapeQuotes selector) (escapeQuotes attrName)
      (escapeQuotes value)
    executeInPage code
      ((domResultLines (host.domCount code)
        (fun n => str "✓ Updated attribute of " ++ natToStr n ++ str " element(s)")
        (str "WARNING: No elements matched selector")).map Event.output)

/-- The handler of `dom replace <old text> <new text>`. -/
def domReplaceText (host : Host V) (args : List Str) : List Event :=
  if args.length < 2 then
    [Event.output ⟨str "ERROR: Usage: dom replace <old text> <new text>",
      Category.error⟩]
  else
    let oldText := args.headD []
    let newText := joinSpace (args.drop 1)
    let code := Script.domReplace (escapeQuotes oldText) (escapeQuotes newText)
    executeInPage code
      ((domResultLines (host.domCount code)
        (fun n => str "✓ Replaced text in " ++ natToStr n ++ str " location(s)")
        (str "WARNING: Text not found in page")).map Event.output)

/-- The `dom` family handler: toggles the DOM status indicator around
the selected sub-operation (`finally`-guaranteed reset), with an
unknown or missing sub-command reported as an error. -/
def handleDomCommand (host : Host V) (args : List Str) : List Event :=
  Event.statusSet StatusKind.dom true ::
    ((let action := lowerStr (args.headD [])
      if action = str "set" then domSetText host (args.drop 1)
      else if action = str "html" then domSetHtml host (args.drop 1)
      else if action = str "attr" then domSetAttribute host (args.drop 1)
      else if action = str "replace" then domReplaceText host (args.drop 1)
      else
        [Event.output ⟨str "ERROR: Unknown DOM action. Use: set, html, attr, or replace",
          Category.error⟩]) ++
      [Event.statusSet StatusKind.dom false])

/-- The completion callback of a wrapped snippet execution
(`panel.js:710-720`): exactly one line, chosen by the transport's
exception flag, then the wrapper's `success` flag, then definedness of
the produced value. -/
def renderSnippetResult (dump : V → Str) : TransportResult V → List OutputLine
  | .exception t => [⟨str "EXCEPTION: " ++ t, Category.error⟩]
  | .value w =>
    match w with
    | some wr =>
      if !wr.success then [⟨str "ERROR: " ++ wr.error, Category.error⟩]
      else
        match wr.result with
        | some v => [⟨dump v, Category.success⟩]
        | none => [⟨str "undefined", Category.success⟩]
    | none => [⟨str "undefined", Category.success⟩]

/-- The snippet-execution handler: an empty source is rejected with an
error line before any transport call; otherwise the source is wrapped
and relayed through `executeInPage`, the snippet status indicator
toggled around the operation (`finally`-guaranteed reset). -/
def handleSnippetExecution (host : Host V) (code : Str) : List Event :=
  if code = [] then
    [Event.output ⟨str "ERROR: No code provided", Category.error⟩]
  else
    Event.statusSet StatusKind.snippet true ::
      (executeInPage (Script.wrappedSnippet code)
        ((renderSnippetResult host.dump (host.snippetReply code)).map Event.output) ++
        [Event.statusSet StatusKind.snippet false])

/-- The `scrape page text` handler: a read-only extraction script is
relayed to the page and its structured result rendered. -/
def scrapePageText (host : Host V) : List Event :=
  executeInPage Script.pageText ((host.pageLines Script.pageText).map Event.output)

/-- The `scrape page links` handler. -/
def scrapePageLinks (host : Host V) : List Event :=
  executeInPage Script.pageLinks ((host.pageLines Script.pageLinks).map Event.output)

/-- The `scrape page meta` handler. -/
def scrapePageMeta (host : Host V) : List Event :=
  executeInPage Script.pageMeta ((host.pageLines Script.pageMeta).map Event.output)

/-- The `scrape page ...` sub-dispatcher. -/
def scrapePage (host : Host V) (args : List Str) : List Event :=
  let action := lowerStr (args.headD [])
  if action = str "text" then scrapePageText host
  else if action = str "links" then scrapePageLinks host
  else if action = str "meta" then scrapePageMeta host
  else
    [Event.output ⟨str "ERROR: Unknown page action. Use: text, links, or meta",
      Category.error⟩]

/-- A parsed URL as produced by the host `URL` constructor: the fields
the panel reads. -/
structure Url where
  protocol : Str
  hostname : Str
  pathname : Str
  deriving DecidableEq, Repr

/-- `String.prototype.split(sep)` for a one-character separator: cuts at
every occurrence, keeping empty fields. -/
def splitChar (sep : Char) : Str → List Str
  | [] => [[]]
  | c :: rest =>
    let r := splitChar sep rest
    if c = sep then [] :: r
    else (c :: r.headD []) :: r.tail

/-- Bool-valued test that the first string starts the second. -/
def leadsWith : Str → Str → Bool
  | [], _ => true
  | a :: as, hay =>
    match hay with
    | [] => false
    | b :: rest => a = b && leadsWith as rest

/-- `String.prototype.includes`: substring occurrence test. -/
def hasSub (needle : Str) : Str → Bool
  | [] => leadsWith needle []
  | c :: rest => leadsWith needle (c :: rest) || hasSub needle rest

/-- Raw-content URL template
`https://raw.githubusercontent.com/owner/repo/branch/path`. -/
def rawUrl (owner repo branch filePath : Str) : Str :=
  str "https://raw.githubusercontent.com/" ++ owner ++ str "/" ++ repo ++
    str "/" ++ branch ++ str "/" ++ filePath

/-- Display cap on fetched file content. -/
def maxLength : Nat := 5000

/-- Marker appended to truncated file content. -/
def truncMarker : Str := str "\n\n[... truncated ...]"

/-- Content as displayed: truncated to `maxLength` characters with the
truncation marker appended exactly when the content is strictly longer
than the cap. -/
def displayContent (content : Str) : Str :=
  if maxLength < content.length then content.take maxLength ++ truncMarker
  else content

/-- `displayFileContent`: header line, (possibly truncated) content
line, footer line. -/
def displayFileContent (fileName content : Str) : List Event :=
  [Event.output ⟨str "\n─── " ++ fileName ++ str " ───", Category.success⟩,
   Event.output ⟨displayContent content, Category.code⟩,
   Event.output ⟨str "─── End of " ++ fileName ++ str " ───\n", Category.success⟩]

/-- `fetchGitHubFile`: try the `main` branch raw URL; on a non-ok
response try the `master` branch raw URL once; on a second failure
report a single not-found error line; on success display the content. -/
def fetchGitHubFile (host : Host V) (owner repo filePath : Str) : List Event :=
  let mainUrl := rawUrl owner repo (str "main") filePath
  Event.netFetch mainUrl ::
    match host.fetchOk mainUrl with
    | some content => displayFileContent filePath content
    | none =>
      let masterUrl := rawUrl owner repo (str "master") filePath
      Event.netFetch masterUrl ::
        match host.fetchOk masterUrl with
        | some content => displayFileContent filePath content
        | none =>
          [Event.output ⟨str "ERROR: File not found: " ++ filePath, Category.error⟩]

/-- The well-known filenames probed by the structure probe. -/
def commonFiles : List Str :=
  [str "README.md", str "package.json", str "manifest.json",
   str "SECURITY.md", str "LICENSE"]

/-- `fetchGitHubTree`: probes each well-known filename on the `main`
branch, listing successes and silently skipping failures. -/
def fetchGitHubTree (host : Host V) (owner repo : Str) : List Event :=
  Event.output ⟨str "INFO: Tree view requires GitHub API access", Category.warning⟩ ::
    Event.output ⟨str "Attempting to fetch common files...", Category.success⟩ ::
      (commonFiles.map fun file =>
        let u := rawUrl owner repo (str "main") file
        Event.netFetch u ::
          match host.fetchOk u with
          | some _ => [Event.output ⟨str "  ✓ " ++ file, Category.success⟩]
          | none => []).flatten

/-- `scrapeGitHub`: parses owner and repo from the validated URL's
pathname, rejects URLs that are not GitHub repository URLs, then
dispatches on the sub-action. -/
def scrapeGitHub (host : Host V) (url : Url) (args : List Str) : List Event :=
  let action := lowerStr (args.headD [])
  let pathParts := (splitChar '/' url.pathname).filter (fun p => p ≠ [])
  if hasSub (str "github.com") url.hostname = false ∨ pathParts.length < 2 then
    [Event.output ⟨str "ERROR: Invalid GitHub repository URL", Category.error⟩]
  else
    let owner := pathParts.headD []
    let repo := (pathParts.drop 1).headD []
    Event.output ⟨str "Scraping GitHub: " ++ owner ++ str "/" ++ repo,
      Category.success⟩ ::
      (if action = str "readme" then fetchGitHubFile host owner repo (str "README.md")
       else if action = str "tree" then fetchGitHubTree host owner repo
       else if action = str "file" then
         let filePath := joinSpace (args.drop 1)
         if filePath = [] then
           [Event.output ⟨str "ERROR: Please specify a file path", Category.error⟩]
         else fetchGitHubFile host owner repo filePath
       else
         [Event.output ⟨str "ERROR: Unknown GitHub action. Use: readme, tree, or file <path>",
           Category.error⟩])

/-- The `scrape` family handler: a missing ValidatedTarget is a hard
precondition failure reported before the status indicator is touched
and before any network or transport activity; otherwise the scraping
indicator is toggled around the sub-dispatch
(`finally`-guaranteed reset). -/
def handleScrapeCommand (host : Host V) (validatedUrl : Option Url)
    (args : List Str) : List Event :=
  match validatedUrl with
  | none =>
    [Event.output ⟨str "ERROR: Please validate a Target URL first", Category.error⟩]
  | some url =>
    Event.statusSet StatusKind.scraping true ::
      ((let ty := lowerStr (args.headD [])
        if ty = str "github" then scrapeGitHub host url (args.drop 1)
        else if ty = str "page" then scrapePage host (args.drop 1)
        else
          [Event.output ⟨str "ERROR: Unknown scrape type. Use: github or page",
            Category.error⟩]) ++
        [Event.statusSet StatusKind.scraping false])

/-- The command family selected by the dispatcher for one input line. -/
inductive Invocation
  | help
  | clear
  | scrape (args : List Str)
  | dom (args : List Str)
  | snippet (code : Str)
  deriving DecidableEq, Repr

/-- Routing of `parseCommand`: split the line on whitespace runs,
lowercase the first token, and select the command family; `eval`,
`exec` and `run` pass the rest of the line (trimmed) to snippet
execution, any unrecognized first token passes the whole line. -/
def dispatch (command : Str) : Invocation :=
  let parts := splitWs command
  let mainCommand := lowerStr (parts.headD [])
  if mainCommand = str "help" then Invocation.help
  else if mainCommand = str "clear" then Invocation.clear
  else if mainCommand = str "scrape" then Invocation.scrape (parts.drop 1)
  else if mainCommand = str "dom" then Invocation.dom (parts.drop 1)
  else if mainCommand = str "eval" ∨ mainCommand = str "exec" ∨ mainCommand = str "run" then
    Invocation.snippet (trimWs (command.drop mainCommand.length))
  else Invocation.snippet command

/-- The banner rule of the help text: 63 box-drawing characters. -/
def helpBanner : Str := List.replicate 63 '═'

/-- The help text shown by `showHelp`, one success-category line (its
banner rules are factored through `helpBanner`). -/
def helpText : Str :=
  str "\n" ++ helpBanner ++ str "
AVAILABLE COMMANDS
" ++ helpBanner ++ str "

JAVASCRIPT SNIPPET EXECUTION:
  <javascript code>          Execute JavaScript in page context
  eval <code>                Explicitly evaluate JavaScript
  Examples:
    document.title
    Array.from(document.links).map(l => l.href)
    window.location.href

DOM MODIFICATION:
  dom set <selector> <value>     Set text content of elements
  dom html <selector> <html>     Set innerHTML of elements
  dom attr <selector> <attr> <value>  Set attribute
  dom replace <old> <new>        Replace text in page
  Examples:
    dom set h1 \"New Heading\"
    dom html #content \"<p>Updated</p>\"
    dom attr .button disabled true
    dom replace \"old text\" \"new text\"

SCRAPING (requires validated Target URL):
  scrape github readme           Fetch README.md
  scrape github tree             Show repository structure
  scrape github file <path>      Fetch specific file
  scrape page text               Extract visible text
  scrape page links              Extract all links
  scrape page meta               Extract meta tags

UTILITY:
  help                          Show this help
  clear                         Clear terminal output

" ++ helpBanner ++ str "
ETHICAL USAGE GUIDELINES
" ++ helpBanner ++ str "

✓ Only operate on tabs you explicitly opened
✓ Only scrape public repositories and websites
✓ Respect robots.txt and terms of service
✓ Use for authorized bug bounty research only
✓ No automated crawling or rate limit abuse

✗ No authentication bypass attempts
✗ No private content access
✗ No data exfiltration
✗ No malicious code injection

" ++ helpBanner ++ str "
"

/-- Observable behavior of one handler invocation: the events it
emitted before returning or throwing, and the message of the error it
threw, if any.  The dispatcher's `try`/`catch` is verified against
arbitrary handler behavior, so the handler table is a parameter. -/
structure HandlerBehavior where
  events : List Event
  thrown : Option Str
  deriving Repr

/-- A handler table: one behavior per command family. -/
structure Handlers where
  onHelp : HandlerBehavior
  onClear : HandlerBehavior
  onScrape : List Str → HandlerBehavior
  onDom : List Str → HandlerBehavior
  onSnippet : Str → HandlerBehavior

/-- Look up the behavior of the handler a dispatch selects. -/
def invokeHandler (h : Handlers) : Invocation → HandlerBehavior
  | .help => h.onHelp
  | .clear => h.onClear
  | .scrape args => h.onScrape args
  | .dom args => h.onDom args
  | .snippet code => h.onSnippet code

/-- `parseCommand`: routes the line, invokes the selected handler
exactly once (the returned invocation list records each handler
invocation), and catches a thrown error, rendering it as one
error-category output line carrying the error's message. -/
def parseCommand (h : Handlers) (command : Str) : List Invocation × List Event :=
  let inv := dispatch command
  let r := invokeHandler h inv
  ([inv],
   r.events ++
     match r.thrown with
     | some m => [Event.output ⟨str "ERROR: " ++ m, Category.error⟩]
     | none => [])

/-- The concrete handler table of the panel (none of these throw; they
report their errors as output lines). -/
def runHandler (host : Host V) (validatedUrl : Option Url) : Invocation → List Event
  | .help => [Event.output ⟨helpText, Category.success⟩]
  | .clear => [Event.clearLog, Event.output ⟨str "Terminal cleared.", Category.success⟩]
  | .scrape args => handleScrapeCommand host validatedUrl args
  | .dom args => handleDomCommand host args
  | .snippet code => handleSnippetExecution host code

/-- Full pipeline for one input line against the concrete handlers. -/
def runCommand (host : Host V) (validatedUrl : Option Url) (command : Str) :
    List Event :=
  runHandler host validatedUrl (dispatch command)

/-- `validateTargetUrl`: an empty trimmed input is rejected leaving the
stored ValidatedTarget alone; a non-empty input is parsed by the host
`URL` constructor (modelled as an oracle returning the parse or the
constructor's error message) — an unparseable input or a scheme other
than http/https clears the stored ValidatedTarget to `none` with an
error line, and a valid one replaces it. -/
def validateTargetUrl (parseURL : Str → Except Str Url)
    (validatedUrl : Option Url) (raw : Str) : Option Url × List Event :=
  let url := trimWs raw
  if url = [] then
    (validatedUrl, [Event.output ⟨str "ERROR: Please enter a URL", Category.error⟩])
  else
    match parseURL url with
    | .ok parsedUrl =>
      if parsedUrl.protocol = str "http:" ∨ parsedUrl.protocol = str "https:" then
        (some parsedUrl,
         [Event.output ⟨str "✓ Target URL validated: " ++ url, Category.success⟩])
      else
        (none,
         [Event.output ⟨str "ERROR: Invalid URL - Only HTTP and HTTPS protocols are supported",
           Category.error⟩])
    | .error m =>
      (none, [Event.output ⟨str "ERROR: Invalid URL - " ++ m, Category.error⟩])

/-- Direction of a history-recall keystroke. -/
inductive NavDir
  | up
  | down
  deriving DecidableEq, Repr

/-- The history-recall state: the history buffer (most recent first),
the cursor (`-1` meaning "not browsing"), and the edit buffer. -/
structure NavState where
  commandHistory : List Str
  historyIndex : Int
  commandInput : Str
  deriving DecidableEq, Repr

/-- Indexing of `commandHistory[i]` at a non-negative cursor. -/
def historyGet (h : List Str) (i : Int) : Str := h.getD i.toNat []

/-- `navigateHistory`: `up` moves the cursor toward older entries while
bounds allow, loading the entry into the edit buffer; `down` moves
toward newest, and moving past the newest resets the cursor to `-1` and
clears the edit buffer; an empty history is a no-op. -/
def navigateHistory (direction : NavDir) (st : NavState) : NavState :=
  if st.commandHistory.length = 0 then st
  else
    match direction with
    | .up =>
      if st.historyIndex < (st.commandHistory.length : Int) - 1 then
        let i := st.historyIndex + 1
        { st with historyIndex := i, commandInput := historyGet st.commandHistory i }
      else st
    | .down =>
      if 0 < st.historyIndex then
        let i := st.historyIndex - 1
        { st with historyIndex := i, commandInput := historyGet st.commandHistory i }
      else if st.historyIndex = 0 then
        { st with historyIndex := -1, commandInput := [] }
      else st

/-- A sequence of recall keystrokes applied in order. -/
def navSeq (ds : List NavDir) (st : NavState) : NavState :=
  ds.foldl (fun s d => navigateHistory d s) st

/-- The cursor invariant: `historyIndex ∈ [-1, length - 1]`. -/
def navInv (st : NavState) : Prop :=
  -1 ≤ st.historyIndex ∧ st.historyIndex ≤ (st.commandHistory.length : Int) - 1

/-- A concrete host whose fetches all fail and whose transport reports
no value, used to instantiate universally quantified statements. -/
def hostUnit : Host Unit where
  fetchOk := fun _ => none
  snippetReply := fun _ => TransportResult.value none
  domCount := fun _ => none
  pageLines := fun _ => []
  dump := fun _ => str "null"

/-- A concrete host whose fetches all succeed with a fixed body. -/
def hostMainOk : Host Unit :=
  { hostUnit with fetchOk := fun _ => some (str "hello") }

/-- A concrete host for which only `master`-branch raw URLs succeed. -/
def hostMasterOnly : Host Unit :=
  { hostUnit with
    fetchOk := fun u => if hasSub (str "/master/") u then some (str "world") else none }

/-- A concrete handler table whose snippet handler throws, used to
instantiate the dispatcher's catch-all behavior. -/
def throwingHandlers : Handlers where
  onHelp := ⟨[], none⟩
  onClear := ⟨[], none⟩
  onScrape := fun _ => ⟨[], none⟩
  onDom := fun _ => ⟨[], none⟩
  onSnippet := fun _ => ⟨[], some (str "boom")⟩

/-- A concrete `URL`-constructor oracle that rejects every input. -/
def parseReject : Str → Except Str Url := fun _ => Except.error (str "Invalid URL")

/-- A concrete `URL`-constructor oracle producing an `ftp:` URL. -/
def parseFtp : Str → Except Str Url := fun _ =>
  Except.ok ⟨str "ftp:", str "example.com", str "/x"⟩

/-- A concrete previously validated target URL. -/
def urlAcme : Url := ⟨str "https:", str "github.com", str "/acme/widget"⟩

end SRT

namespace SRT

/-- C1 as stated quantifies over all inputs, backslashes included; the
single-character input consisting of one backslash refutes it: escaping
leaves the backslash alone, the backslash then swallows the intended
closing quote, and the embedded literal does not close where intended
(here it never closes at all). -/
theorem c1_backslash_breaks_literal :
    scanLit (escapeQuotes ['\\'] ++ ['\'']) = none ∧
      scanLit (escapeQuotes ['\\'] ++ ['\'']) ≠ some (['\\'], []) := by
  constructor
  · rfl
  · intro h
    simp [escapeQuotes, scanLit] at h

/-- C1 (amended): for every user-supplied DOM argument that contains no
backslash and no raw line terminator, escaping each single quote with
`escapeQuotes` and embedding the result between single quotes yields a
literal that closes exactly at the intended closing quote: the lexer
returns the original argument as the literal value and the trailing
script text untouched.  (DOM arguments are produced by splitting the
command line on whitespace, so they can never contain a raw line
terminator; the backslash exclusion is forced by
`c1_backslash_breaks_literal`.) -/
theorem c1_escape_wellformed (s : Str) (suffix : Str)
    (hbs : '\\' ∉ s) (hnl : '\n' ∉ s) (hcr : '\r' ∉ s) :
    scanLit (escapeQuotes s ++ '\'' :: suffix) = some (s, suffix) := by
  induction s with
  | nil =>
    rw [escapeQuotes, scanLit.eq_def]
    simp
  | cons c rest ih =>
    have hbs' : '\\' ∉ rest := fun h => hbs (List.mem_cons_of_mem _ h)
    have hnl' : '\n' ∉ rest := fun h => hnl (List.mem_cons_of_mem _ h)
    have hcr' : '\r' ∉ rest := fun h => hcr (List.mem_cons_of_mem _ h)
    have hc_bs : c ≠ '\\' := fun h => hbs (h ▸ List.mem_cons_self c rest)
    have hc_nl : c ≠ '\n' := fun h => hnl (h ▸ List.mem_cons_self c rest)
    have hc_cr : c ≠ '\r' := fun h => hcr (h ▸ List.mem_cons_self c rest)
    by_cases hq : c = '\''
    · subst hq
      simp only [escapeQuotes, if_pos rfl, List.cons_append, List.nil_append]
      rw [scanLit.eq_def]
      simp [ih hbs' hnl' hcr', escDecode]
    · simp only [escapeQuotes, if_neg hq, List.cons_append, List.nil_append]
      rw [scanLit.eq_def]
      simp [hq, hc_bs, hc_nl, hc_cr, ih hbs' hnl' hcr']

/-- Closed instance of `c1_escape_wellformed` at the argument `a'b`
followed by the script text `);`. -/
theorem c1_escape_wellformed_witness :
    scanLit (escapeQuotes (str "a'b") ++ '\'' :: str ");") =
      some (str "a'b", str ");") :=
  c1_escape_wellformed (str "a'b") (str ");") (by decide) (by decide) (by decide)

/-- C2: for every non-empty command line, the dispatcher splits on
whitespace and the lowercased first token selects exactly one handler:
`help` and `clear` route to the utility handlers, `scrape` and `dom`
route their family handlers the remaining tokens, `eval`/`exec`/`run`
route the rest of the line (trimmed) to snippet execution, and any
other first token routes the entire line as a literal script. -/
theorem c2_dispatch_case_analysis (command : Str) (hne : command ≠ []) :
    (lowerStr ((splitWs command).headD []) = str "help" →
      dispatch command = Invocation.help) ∧
    (lowerStr ((splitWs command).headD []) = str "clear" →
      dispatch command = Invocation.clear) ∧
    (lowerStr ((splitWs command).headD []) = str "scrape" →
      dispatch command = Invocation.scrape ((splitWs command).drop 1)) ∧
    (lowerStr ((splitWs command).headD []) = str "dom" →
      dispatch command = Invocation.dom ((splitWs command).drop 1)) ∧
    ((lowerStr ((splitWs command).headD []) = str "eval" ∨
      lowerStr ((splitWs command).headD []) = str "exec" ∨
      lowerStr ((splitWs command).headD []) = str "run") →
      dispatch command = Invocation.snippet
        (trimWs (command.drop (lowerStr ((splitWs command).headD [])).length))) ∧
    (lowerStr ((splitWs command).headD []) ∉
        [str "help", str "clear", str "scrape", str "dom",
         str "eval", str "exec", str "run"] →
      dispatch command = Invocation.snippet command) := by
  refine ⟨fun h => ?_, fun h => ?_, fun h => ?_, fun h => ?_, fun h => ?_, fun h => ?_⟩
  · simp only [dispatch]
    rw [h, if_pos rfl]
  · simp only [dispatch]
    rw [h, if_neg (by decide), if_pos rfl]
  · simp only [dispatch]
    rw [h, if_neg (by decide), if_neg (by decide), if_pos rfl]
  · simp only [dispatch]
    rw [h, if_neg (by decide), if_neg (by decide), if_neg (by decide), if_pos rfl]
  · rcases h with h | h | h <;>
      · simp only [dispatch]
        rw [h, if_neg (by decide), if_neg (by decide), if_neg (by decide),
          if_neg (by decide), if_pos (by decide)]
  · simp only [List.mem_cons, List.not_mem_nil, or_false, not_or] at h
    obtain ⟨h1, h2, h3, h4, h5, h6, h7⟩ := h
    simp only [dispatch]
    rw [if_neg h1, if_neg h2, if_neg h3, if_neg h4,
      if_neg (not_or.mpr ⟨h5, not_or.mpr ⟨h6, h7⟩⟩)]

/-- Closed instance of `c2_dispatch_case_analysis`: the line
`EVAL document.title` routes its rest to snippet execution. -/
theorem c2_dispatch_witness :
    dispatch (str "EVAL document.title") = Invocation.snippet
      (trimWs ((str "EVAL document.title").drop
        (lowerStr ((splitWs (str "EVAL document.title")).headD [])).length)) :=
  (c2_dispatch_case_analysis (str "EVAL document.title") (by decide)).2.2.2.2.1
    (Or.inl (by decide))

/-- C4: every transport completion of a snippet execution renders
exactly one output line: the `EXCEPTION:` error line when the transport
reports an uncaught exception, the `ERROR:` line carrying the caught
message when the wrapper reports failure, the pretty-printed dump when
a defined value was produced, and the literal text `undefined`
otherwise. -/
theorem c4_snippet_render_cases {V : Type} (dump : V → Str) :
    (∀ tr : TransportResult V, (renderSnippetResult dump tr).length = 1) ∧
    (∀ t, renderSnippetResult dump (TransportResult.exception t) =
      [⟨str "EXCEPTION: " ++ t, Category.error⟩]) ∧
    (∀ r e, renderSnippetResult dump (TransportResult.value (some ⟨false, r, e⟩)) =
      [⟨str "ERROR: " ++ e, Category.error⟩]) ∧
    (∀ v e, renderSnippetResult dump (TransportResult.value (some ⟨true, some v, e⟩)) =
      [⟨dump v, Category.success⟩]) ∧
    (∀ e, renderSnippetResult dump (TransportResult.value (some ⟨true, none, e⟩)) =
      [⟨str "undefined", Category.success⟩]) ∧
    renderSnippetResult dump (TransportResult.value none) =
      [⟨str "undefined", Category.success⟩] := by
  refine ⟨fun tr => ?_, fun t => rfl, fun r e => rfl, fun v e => rfl, fun e => rfl, rfl⟩
  rcases tr with t | w
  · rfl
  · rcases w with _ | ⟨s, r, e⟩
    · rfl
    · rcases s with _ | _
      · rfl
      · rcases r with _ | v <;> rfl

/-- C9: every transport invocation is bracketed: the `EXECUTION_START`
runtime message precedes the transport call, the `EXECUTION_END`
runtime message follows its completion unconditionally (the completion
callback sends it before any rendering), and the rendering callback's
output comes after the end message; the transport call occurs exactly
once, at position 1, inside this bracket. -/
theorem c9_transport_bracketed (code : Script) (cbLines : List OutputLine) :
    executeInPage code (cbLines.map Event.output) =
      [Event.message (str "EXECUTION_START"), Event.evalCall code,
       Event.message (str "EXECUTION_END")] ++ cbLines.map Event.output ∧
    ∀ i s, (executeInPage code (cbLines.map Event.output))[i]? =
        some (Event.evalCall s) →
      i = 1 ∧ s = code ∧
      (executeInPage code (cbLines.map Event.output))[0]? =
        some (Event.message (str "EXECUTION_START")) ∧
      (executeInPage code (cbLines.map Event.output))[2]? =
        some (Event.message (str "EXECUTION_END")) := by
  refine ⟨rfl, fun i s h => ?_⟩
  match i with
  | 0 => simp [executeInPage] at h
  | 1 =>
    simp only [executeInPage, List.getElem?_cons_succ, List.getElem?_cons_zero,
      Option.some.injEq, Event.evalCall.injEq] at h
    subst h
    refine ⟨rfl, rfl, ?_, ?_⟩ <;>
      simp [executeInPage, List.getElem?_cons_succ, List.getElem?_cons_zero]
  | 2 => simp [executeInPage] at h
  | (n + 3) =>
    exfalso
    simp only [executeInPage, List.getElem?_cons_succ, List.getElem?_map] at h
    rcases hx : cbLines[n]? with _ | l <;> rw [hx] at h <;> simp at h

/-- Closed instance of `c9_transport_bracketed` at the page-text script
with a one-line rendering callback. -/
theorem c9_transport_bracketed_witness :
    executeInPage Script.pageText
        ([(⟨str "x", Category.success⟩ : OutputLine)].map Event.output) =
      [Event.message (str "EXECUTION_START"), Event.evalCall Script.pageText,
       Event.message (str "EXECUTION_END")] ++
        [(⟨str "x", Category.success⟩ : OutputLine)].map Event.output ∧
    (1 = 1 ∧ Script.pageText = Script.pageText ∧
      (executeInPage Script.pageText
        ([(⟨str "x", Category.success⟩ : OutputLine)].map Event.output))[0]? =
        some (Event.message (str "EXECUTION_START")) ∧
      (executeInPage Script.pageText
        ([(⟨str "x", Category.success⟩ : OutputLine)].map Event.output))[2]? =
        some (Event.message (str "EXECUTION_END"))) :=
  ⟨(c9_transport_bracketed Script.pageText [⟨str "x", Category.success⟩]).1,
   (c9_transport_bracketed Script.pageText [⟨str "x", Category.success⟩]).2 1
     Script.pageText rfl⟩

/-- C3: the GitHub file fetch first requests the `main`-branch raw URL;
on a non-success response it requests the `master`-branch raw URL
exactly once; if that also fails, a single `File not found` error line
is emitted; on success the content is displayed truncated to at most
`maxLength` characters, with the truncation marker appended exactly
when the content exceeds the cap. -/
theorem c3_github_file_fetch {V : Type} (host : Host V) (owner repo filePath : Str) :
    (∀ content, host.fetchOk (rawUrl owner repo (str "main") filePath) = some content →
      fetchGitHubFile host owner repo filePath =
        Event.netFetch (rawUrl owner repo (str "main") filePath) ::
          displayFileContent filePath content ∧
      networkOf (fetchGitHubFile host owner repo filePath) =
        [rawUrl owner repo (str "main") filePath]) ∧
    (∀ content, host.fetchOk (rawUrl owner repo (str "main") filePath) = none →
      host.fetchOk (rawUrl owner repo (str "master") filePath) = some content →
      fetchGitHubFile host owner repo filePath =
        Event.netFetch (rawUrl owner repo (str "main") filePath) ::
          Event.netFetch (rawUrl owner repo (str "master") filePath) ::
            displayFileContent filePath content ∧
      networkOf (fetchGitHubFile host owner repo filePath) =
        [rawUrl owner repo (str "main") filePath,
         rawUrl owner repo (str "master") filePath]) ∧
    (host.fetchOk (rawUrl owner repo (str "main") filePath) = none →
      host.fetchOk (rawUrl owner repo (str "master") filePath) = none →
      fetchGitHubFile host owner repo filePath =
        [Event.netFetch (rawUrl owner repo (str "main") filePath),
         Event.netFetch (rawUrl owner repo (str "master") filePath),
         Event.output ⟨str "ERROR: File not found: " ++ filePath, Category.error⟩] ∧
      errorsOf (fetchGitHubFile host owner repo filePath) =
        [⟨str "ERROR: File not found: " ++ filePath, Category.error⟩]) ∧
    (∀ content : Str, content.length ≤ maxLength → displayContent content = content) ∧
    (∀ content : Str, maxLength < content.length →
      displayContent content = content.take maxLength ++ truncMarker ∧
      (content.take maxLength).length = maxLength) := by
  refine ⟨fun content hmain => ?_, fun content hmain hmaster => ?_,
    fun hmain hmaster => ?_, fun content hle => ?_, fun content hgt => ?_⟩
  · constructor
    · simp [fetchGitHubFile, hmain]
    · simp [fetchGitHubFile, hmain, networkOf, displayFileContent]
  · constructor
    · simp [fetchGitHubFile, hmain, hmaster]
    · simp [fetchGitHubFile, hmain, hmaster, networkOf, displayFileContent]
  · constructor
    · simp [fetchGitHubFile, hmain, hmaster]
    · simp [fetchGitHubFile, hmain, hmaster, errorsOf, outputsOf]
  · rw [displayContent, if_neg (by omega)]
  · refine ⟨by rw [displayContent, if_pos hgt], ?_⟩
    rw [List.length_take]
    omega

/-- Closed instances of `c3_github_file_fetch`: a host where `main`
succeeds, a host where only `master` succeeds, a host where both fail,
a short content left untruncated, and a long content truncated with the
marker. -/
theorem c3_github_file_fetch_witness :
    (fetchGitHubFile hostMainOk (str "o") (str "r") (str "p") =
      Event.netFetch (rawUrl (str "o") (str "r") (str "main") (str "p")) ::
        displayFileContent (str "p") (str "hello") ∧
     networkOf (fetchGitHubFile hostMainOk (str "o") (str "r") (str "p")) =
      [rawUrl (str "o") (str "r") (str "main") (str "p")]) ∧
    (fetchGitHubFile hostMasterOnly (str "o") (str "r") (str "p") =
      Event.netFetch (rawUrl (str "o") (str "r") (str "main") (str "p")) ::
        Event.netFetch (rawUrl (str "o") (str "r") (str "master") (str "p")) ::
          displayFileContent (str "p") (str "world") ∧
     networkOf (fetchGitHubFile hostMasterOnly (str "o") (str "r") (str "p")) =
      [rawUrl (str "o") (str "r") (str "main") (str "p"),
       rawUrl (str "o") (str "r") (str "master") (str "p")]) ∧
    (fetchGitHubFile hostUnit (str "o") (str "r") (str "p") =
      [Event.netFetch (rawUrl (str "o") (str "r") (str "main") (str "p")),
       Event.netFetch (rawUrl (str "o") (str "r") (str "master") (str "p")),
       Event.output ⟨str "ERROR: File not found: " ++ str "p", Category.error⟩] ∧
     errorsOf (fetchGitHubFile hostUnit (str "o") (str "r") (str "p")) =
      [⟨str "ERROR: File not found: " ++ str "p", Category.error⟩]) ∧
    displayContent (str "hi") = str "hi" ∧
    (displayContent (List.replicate 5001 'a') =
      (List.replicate 5001 'a').take maxLength ++ truncMarker ∧
     ((List.replicate 5001 'a').take maxLength).length = maxLength) :=
  ⟨(c3_github_file_fetch hostMainOk (str "o") (str "r") (str "p")).1
      (str "hello") rfl,
   (c3_github_file_fetch hostMasterOnly (str "o") (str "r") (str "p")).2.1
      (str "world") (by decide) (by decide),
   (c3_github_file_fetch hostUnit (str "o") (str "r") (str "p")).2.2.1 rfl rfl,
   (c3_github_file_fetch hostUnit (str "o") (str "r") (str "p")).2.2.2.1
      (str "hi") (by decide),
   (c3_github_file_fetch hostUnit (str "o") (str "r") (str "p")).2.2.2.2
      (List.replicate 5001 'a') (by rw [List.length_replicate]; norm_num [maxLength])⟩

/-- C5: a `scrape` command issued while no ValidatedTarget is set emits
exactly one error line and nothing else: zero network fetches, zero
transport invocations, and no status-indicator change (the handler
returns before touching any stored state). -/
theorem c5_scrape_without_target {V : Type} (host : Host V)
    (validatedUrl : Option Url) (args : List Str) (h : validatedUrl = none) :
    handleScrapeCommand host validatedUrl args =
      [Event.output ⟨str "ERROR: Please validate a Target URL first", Category.error⟩] ∧
    errorsOf (handleScrapeCommand host validatedUrl args) =
      [⟨str "ERROR: Please validate a Target URL first", Category.error⟩] ∧
    networkOf (handleScrapeCommand host validatedUrl args) = [] ∧
    transportOf (handleScrapeCommand host validatedUrl args) = [] ∧
    statusOf (handleScrapeCommand host validatedUrl args) = [] := by
  subst h
  exact ⟨rfl, rfl, rfl, rfl, rfl⟩

/-- Closed instance of `c5_scrape_without_target` at the concrete
all-failing host and the arguments of `scrape github readme`. -/
theorem c5_scrape_without_target_witness :
    handleScrapeCommand hostUnit none [str "github", str "readme"] =
      [Event.output ⟨str "ERROR: Please validate a Target URL first", Category.error⟩] ∧
    errorsOf (handleScrapeCommand hostUnit none [str "github", str "readme"]) =
      [⟨str "ERROR: Please validate a Target URL first", Category.error⟩] ∧
    networkOf (handleScrapeCommand hostUnit none [str "github", str "readme"]) = [] ∧
    transportOf (handleScrapeCommand hostUnit none [str "github", str "readme"]) = [] ∧
    statusOf (handleScrapeCommand hostUnit none [str "github", str "readme"]) = [] :=
  c5_scrape_without_target hostUnit none [str "github", str "readme"] rfl

/-- C6: when the handler selected for an input line throws, the
dispatcher catches the error and appends exactly one error-category
output line carrying the error's message after the handler's own
events; the error is not propagated (the dispatcher returns a normal
result) and the handler is invoked exactly once, never retried. -/
theorem c6_dispatcher_catch (h : Handlers) (command m : Str)
    (hthrow : (invokeHandler h (dispatch command)).thrown = some m) :
    parseCommand h command =
      ([dispatch command],
       (invokeHandler h (dispatch command)).events ++
         [Event.output ⟨str "ERROR: " ++ m, Category.error⟩]) ∧
    (parseCommand h command).1.length = 1 := by
  simp [parseCommand, hthrow]

/-- Closed instance of `c6_dispatcher_catch`: a raw-script line against
the handler table whose snippet handler throws `boom`. -/
theorem c6_dispatcher_catch_witness :
    parseCommand throwingHandlers (str "document.title") =
      ([dispatch (str "document.title")],
       (invokeHandler throwingHandlers (dispatch (str "document.title"))).events ++
         [Event.output ⟨str "ERROR: " ++ str "boom", Category.error⟩]) ∧
    (parseCommand throwingHandlers (str "document.title")).1.length = 1 :=
  c6_dispatcher_catch throwingHandlers (str "document.title") (str "boom") rfl

/-- C7: every operation invocation with missing required arguments —
fewer than 2 for `dom set`, `dom html` and `dom replace`, fewer than 3
for `dom attr`, an empty snippet source — emits an error line
immediately, with zero transport invocations and zero network calls. -/
theorem c7_missing_argument_guards {V : Type} (host : Host V) :
    (∀ args : List Str, args.length < 2 →
      domSetText host args =
        [Event.output ⟨str "ERROR: Usage: dom set <selector> <text>", Category.error⟩] ∧
      transportOf (domSetText host args) = [] ∧
      networkOf (domSetText host args) = []) ∧
    (∀ args : List Str, args.length < 2 →
      domSetHtml host args =
        [Event.output ⟨str "ERROR: Usage: dom html <selector> <html>", Category.error⟩] ∧
      transportOf (domSetHtml host args) = [] ∧
      networkOf (domSetHtml host args) = []) ∧
    (∀ args : List Str, args.length < 2 →
      domReplaceText host args =
        [Event.output ⟨str "ERROR: Usage: dom replace <old text> <new text>",
          Category.error⟩] ∧
      transportOf (domReplaceText host args) = [] ∧
      networkOf (domReplaceText host args) = []) ∧
    (∀ args : List Str, args.length < 3 →
      domSetAttribute host args =
        [Event.output ⟨str "ERROR: Usage: dom attr <selector> <attribute> <value>",
          Category.error⟩] ∧
      transportOf (domSetAttribute host args) = [] ∧
      networkOf (domSetAttribute host args) = []) ∧
    (handleSnippetExecution host [] =
        [Event.output ⟨str "ERROR: No code provided", Category.error⟩] ∧
      transportOf (handleSnippetExecution host []) = [] ∧
      networkOf (handleSnippetExecution host []) = []) := by
  refine ⟨fun args hlt => ?_, fun args hlt => ?_, fun args hlt => ?_,
    fun args hlt => ?_, ?_⟩
  · simp [domSetText, hlt, transportOf, networkOf]
  · simp [domSetHtml, hlt, transportOf, networkOf]
  · simp [domReplaceText, hlt, transportOf, networkOf]
  · simp [domSetAttribute, hlt, transportOf, networkOf]
  · exact ⟨rfl, rfl, rfl⟩

/-- Closed instances of `c7_missing_argument_guards` at the concrete
all-failing host, one per guarded operation. -/
theorem c7_missing_argument_guards_witness :
    (domSetText hostUnit [] =
        [Event.output ⟨str "ERROR: Usage: dom set <selector> <text>", Category.error⟩] ∧
      transportOf (domSetText hostUnit []) = [] ∧
      networkOf (domSetText hostUnit []) = []) ∧
    (domSetHtml hostUnit [str "h1"] =
        [Event.output ⟨str "ERROR: Usage: dom html <selector> <html>", Category.error⟩] ∧
      transportOf (domSetHtml hostUnit [str "h1"]) = [] ∧
      networkOf (domSetHtml hostUnit [str "h1"]) = []) ∧
    (domReplaceText hostUnit [str "old"] =
        [Event.output ⟨str "ERROR: Usage: dom replace <old text> <new text>",
          Category.error⟩] ∧
      transportOf (domReplaceText hostUnit [str "old"]) = [] ∧
      networkOf (domReplaceText hostUnit [str "old"]) = []) ∧
    (domSetAttribute hostUnit [str "a", str "href"] =
        [Event.output ⟨str "ERROR: Usage: dom attr <selector> <attribute> <value>",
          Category.error⟩] ∧
      transportOf (domSetAttribute hostUnit [str "a", str "href"]) = [] ∧
      networkOf (domSetAttribute hostUnit [str "a", str "href"]) = []) ∧
    (handleSnippetExecution hostUnit [] =
        [Event.output ⟨str "ERROR: No code provided", Category.error⟩] ∧
      transportOf (handleSnippetExecution hostUnit []) = [] ∧
      networkOf (handleSnippetExecution hostUnit []) = []) :=
  ⟨(c7_missing_argument_guards hostUnit).1 [] (by decide),
   (c7_missing_argument_guards hostUnit).2.1 [str "h1"] (by decide),
   (c7_missing_argument_guards hostUnit).2.2.1 [str "old"] (by decide),
   (c7_missing_argument_guards hostUnit).2.2.2.1 [str "a", str "href"] (by decide),
   (c7_missing_argument_guards hostUnit).2.2.2.2⟩

/-- Single-step preservation of the history-cursor invariant. -/
theorem navigateHistory_inv (d : NavDir) (st : NavState) (h : navInv st) :
    navInv (navigateHistory d st) := by
  obtain ⟨h1, h2⟩ := h
  simp only [navInv] at *
  unfold navigateHistory
  split
  · exact ⟨h1, h2⟩
  · cases d
    · dsimp only
      split
      next hcmp =>
        exact ⟨show (-1 : Int) ≤ st.historyIndex + 1 by omega,
               show st.historyIndex + 1 ≤ (st.commandHistory.length : Int) - 1 by omega⟩
      · exact ⟨h1, h2⟩
    · dsimp only
      split
      next hpos =>
        exact ⟨show (-1 : Int) ≤ st.historyIndex - 1 by omega,
               show st.historyIndex - 1 ≤ (st.commandHistory.length : Int) - 1 by omega⟩
      next hnpos =>
        split
        next hzero =>
          exact ⟨show (-1 : Int) ≤ -1 by omega,
                 show (-1 : Int) ≤ (st.commandHistory.length : Int) - 1 by omega⟩
        · exact ⟨h1, h2⟩

/-- C8: over any sequence of up/down navigations the cursor stays in
`[-1, length - 1]`; `up` at the oldest entry is a no-op; `down` at the
newest entry resets the cursor to `-1` and clears the edit buffer; a
further `down` at cursor `-1` changes nothing (so the cursor stays `-1`
and the edit buffer stays empty). -/
theorem c8_history_navigation :
    (∀ (st : NavState) (ds : List NavDir), navInv st → navInv (navSeq ds st)) ∧
    (∀ st : NavState, st.historyIndex = (st.commandHistory.length : Int) - 1 →
      navigateHistory NavDir.up st = st) ∧
    (∀ st : NavState, st.historyIndex = 0 → st.commandHistory.length ≠ 0 →
      navigateHistory NavDir.down st =
        { st with historyIndex := -1, commandInput := [] }) ∧
    (∀ st : NavState, st.historyIndex = -1 → navigateHistory NavDir.down st = st) := by
  refine ⟨?_, ?_, ?_, ?_⟩
  · intro st ds
    induction ds generalizing st with
    | nil => exact fun h => h
    | cons d ds ih => exact fun h => ih _ (navigateHistory_inv d st h)
  · intro st h
    unfold navigateHistory
    split
    · rfl
    · dsimp only
      rw [if_neg (by omega)]
  · intro st h0 hne
    unfold navigateHistory
    rw [if_neg hne]
    dsimp only
    rw [if_neg (by omega), if_pos h0]
  · intro st h
    unfold navigateHistory
    split
    · rfl
    · dsimp only
      rw [if_neg (by omega), if_neg (by omega)]

/-- Closed instances of `c8_history_navigation` on a two-entry history:
a five-keystroke navigation staying in bounds, `up` stuck at the oldest,
`down` from the newest clearing the buffer, and `down` at `-1` a no-op. -/
theorem c8_history_navigation_witness :
    navInv (navSeq [NavDir.up, NavDir.up, NavDir.down, NavDir.down, NavDir.down]
      ⟨[str "a", str "b"], -1, []⟩) ∧
    navigateHistory NavDir.up ⟨[str "a", str "b"], 1, str "b"⟩ =
      ⟨[str "a", str "b"], 1, str "b"⟩ ∧
    navigateHistory NavDir.down ⟨[str "a", str "b"], 0, str "a"⟩ =
      ⟨[str "a", str "b"], -1, []⟩ ∧
    navigateHistory NavDir.down ⟨[str "a", str "b"], -1, []⟩ =
      ⟨[str "a", str "b"], -1, []⟩ :=
  ⟨c8_history_navigation.1 ⟨[str "a", str "b"], -1, []⟩
      [NavDir.up, NavDir.up, NavDir.down, NavDir.down, NavDir.down]
      ⟨by decide, by decide⟩,
   c8_history_navigation.2.1 ⟨[str "a", str "b"], 1, str "b"⟩ (by decide),
   c8_history_navigation.2.2.1 ⟨[str "a", str "b"], 0, str "a"⟩ rfl (by decide),
   c8_history_navigation.2.2.2 ⟨[str "a", str "b"], -1, []⟩ rfl⟩

/-- C10: URL validation distinguishes empty from invalid input: an
empty trimmed input yields an error line and leaves the stored
ValidatedTarget unchanged; a non-empty input that the `URL` constructor
rejects, or whose scheme is neither `http:` nor `https:`, sets the
stored ValidatedTarget to `none` and yields an error line. -/
theorem c10_url_validation (parseURL : Str → Except Str Url)
    (validatedUrl : Option Url) (raw : Str) :
    (trimWs raw = [] →
      validateTargetUrl parseURL validatedUrl raw =
        (validatedUrl,
         [Event.output ⟨str "ERROR: Please enter a URL", Category.error⟩])) ∧
    (∀ m, trimWs raw ≠ [] → parseURL (trimWs raw) = Except.error m →
      validateTargetUrl parseURL validatedUrl raw =
        (none, [Event.output ⟨str "ERROR: Invalid URL - " ++ m, Category.error⟩])) ∧
    (∀ u, trimWs raw ≠ [] → parseURL (trimWs raw) = Except.ok u →
      u.protocol ≠ str "http:" → u.protocol ≠ str "https:" →
      validateTargetUrl parseURL validatedUrl raw =
        (none,
         [Event.output
           ⟨str "ERROR: Invalid URL - Only HTTP and HTTPS protocols are supported",
            Category.error⟩])) := by
  refine ⟨fun he => ?_, fun m hne hp => ?_, fun u hne hp hh hhs => ?_⟩
  · simp [validateTargetUrl, he]
  · simp [validateTargetUrl, hne, hp]
  · simp [validateTargetUrl, hne, hp, hh, hhs]

/-- Closed instances of `c10_url_validation`: blank input with a
previously validated target surviving; a rejected input clearing it; an
`ftp:` URL clearing it. -/
theorem c10_url_validation_witness :
    validateTargetUrl parseReject (some urlAcme) (str "   ") =
      (some urlAcme,
       [Event.output ⟨str "ERROR: Please enter a URL", Category.error⟩]) ∧
    validateTargetUrl parseReject (some urlAcme) (str "::") =
      (none,
       [Event.output ⟨str "ERROR: Invalid URL - " ++ str "Invalid URL",
         Category.error⟩]) ∧
    validateTargetUrl parseFtp (some urlAcme) (str "ftp://example.com/x") =
      (none,
       [Event.output
         ⟨str "ERROR: Invalid URL - Only HTTP and HTTPS protocols are supported",
          Category.error⟩]) :=
  ⟨(c10_url_validation parseReject (some urlAcme) (str "   ")).1 (by decide),
   (c10_url_validation parseReject (some urlAcme) (str "::")).2.1
      (str "Invalid URL") (by decide) rfl,
   (c10_url_validation parseFtp (some urlAcme) (str "ftp://example.com/x")).2.2
      ⟨str "ftp:", str "example.com", str "/x"⟩ (by decide) rfl
      (by decide) (by decide)⟩

end SRT
